import Mathlib

/-!
Verification of the fleet-tracker backend presence and location relay
(src/src/server.js) against its specification.

The socket.io event handlers are shallowly embedded as pure Lean functions.
The persistent store (a MongoDB collection keyed by driverId) is a list of
records; Location.findOneAndUpdate with upsert becomes upsertStatus,
findOneAndUpdate without upsert becomes updateStatusIfExists.  Wall-clock
time (new Date()) is passed in as a Nat parameter.  Whether the awaited
store call succeeds or throws is passed in as a Bool (dbOk), modelling the
try/catch around each write.  A broadcast is recorded as an Emit value that
carries the event name, the payload, and the socket.io delivery scope
(io.emit reaches every connected session; socket.broadcast.emit reaches
every connected session except the sender).  JavaScript payloads that may
be undefined or null are Option values; a field access that would raise a
TypeError in JavaScript is recorded in the result as threw = true.
-/

namespace Fleet

/-- Geographic coordinates, the shape of data.coordinates in server.js. -/
structure Coord where
  latitude : Int
  longitude : Int
deriving DecidableEq, Repr

/-- Driver presence status, the "status" field written by server.js. -/
inductive Status where
  | online
  | offline
deriving DecidableEq, Repr

/-- One document of the Location collection: driverId is the query key,
status and lastSeen are written by the presence handlers, coordinates by
the location service. -/
structure DriverRecord where
  driverId : String
  status : Status
  lastSeen : Nat
  coordinates : Option Coord
deriving DecidableEq, Repr

/-- The payload of a driver-active message: data.driverId may be absent. -/
structure DriverActiveData where
  driverId : Option String
deriving DecidableEq, Repr

/-- The payload of an update-location message: data.driverId and
data.coordinates may each be absent. -/
structure LocData where
  driverId : Option String
  coordinates : Option Coord
deriving DecidableEq, Repr

/-- Payload of an outbound event emitted by server.js.  A status-update
carries a driverId and a status; a location-received carries the inbound
data object verbatim (server.js line 67 emits data unchanged). -/
inductive EventPayload where
  | statusUpdate (driverId : String) (status : Status)
  | locationReceived (data : LocData)
deriving DecidableEq, Repr

/-- Delivery scope of an emit: io.emit reaches all connected sessions,
socket.broadcast.emit reaches all connected sessions except the sender. -/
inductive Scope where
  | all
  | exceptSender
deriving DecidableEq, Repr

/-- One outbound event as submitted to socket.io. -/
structure Emit where
  event : String
  payload : EventPayload
  scope : Scope
deriving DecidableEq, Repr

/-- Result of running one handler: the store afterwards, the events
emitted, the value of socket.driverId afterwards, whether an exception
escaped the handler, and the console.error messages produced. -/
structure HandlerResult where
  store : List DriverRecord
  emits : List Emit
  binding : Option String
  threw : Bool
  errorLogs : List String
deriving DecidableEq, Repr

/-- Whether a given session receives a given emit: socket.io delivers to
every connected session, minus the sender for a broadcast emit. -/
def deliveredTo (e : Emit) (sender : Nat) (connected : List Nat) (sid : Nat) : Bool :=
  decide (sid ∈ connected) &&
    (match e.scope with
     | Scope.all => true
     | Scope.exceptSender => decide (sid ≠ sender))

/-- First record whose driverId matches, as Mongo findOne would return. -/
def findD : List DriverRecord → String → Option DriverRecord
  | [], _ => none
  | r :: rs, d => if r.driverId = d then some r else findD rs d

/-- Number of records held for a given driverId. -/
def countD : List DriverRecord → String → Nat
  | [], _ => 0
  | r :: rs, d => (if r.driverId = d then 1 else 0) + countD rs d

/-- Location.findOneAndUpdate with upsert true (server.js lines 45 to 49):
set status and lastSeen on the first record matching driverId, keeping its
coordinates; create the record if no match exists. -/
def upsertStatus : List DriverRecord → String → Status → Nat → List DriverRecord
  | [], d, st, now => [⟨d, st, now, none⟩]
  | r :: rs, d, st, now =>
    if r.driverId = d then ⟨d, st, now, r.coordinates⟩ :: rs
    else r :: upsertStatus rs d st now

/-- Location.findOneAndUpdate without upsert (server.js lines 80 to 83):
set status and lastSeen on the first record matching driverId, keeping its
coordinates; leave the store unchanged if no match exists. -/
def updateStatusIfExists : List DriverRecord → String → Status → Nat → List DriverRecord
  | [], _, _, _ => []
  | r :: rs, d, st, now =>
    if r.driverId = d then ⟨d, st, now, r.coordinates⟩ :: rs
    else r :: updateStatusIfExists rs d st now

/-- Modelled from the spec: saveLocation lives in
src/services/locationService.js, which is not part of the provided source.
Per the spec, it upserts DriverRecord.coordinates and lastSeen without
touching status.  The spec does not fix the status of a record created by
a position update before any check-in; it is modelled as offline here, and
no claim depends on that choice (the status claim assumes the record
already exists). -/
def saveLocation : List DriverRecord → String → Option Coord → Nat → List DriverRecord
  | [], d, c, now => [⟨d, Status.offline, now, c⟩]
  | r :: rs, d, c, now =>
    if r.driverId = d then ⟨d, r.status, now, c⟩ :: rs
    else r :: saveLocation rs d c now

/-- The driver-active handler (server.js lines 29 to 56).  A missing
payload or a missing or empty driverId is rejected before any effect
(the JavaScript guard is the falsiness test on data and data.driverId).
Otherwise socket.driverId is assigned first, then the upsert runs inside
try; on success a status-update online event is emitted to all sessions,
on store failure the error is logged and nothing is emitted. -/
def driverActive (sock : Option String) (store : List DriverRecord)
    (data : Option DriverActiveData) (now : Nat) (dbOk : Bool) : HandlerResult :=
  match data with
  | none => ⟨store, [], sock, false, ["driver-active received but driverId is missing!"]⟩
  | some d =>
    match d.driverId with
    | none => ⟨store, [], sock, false, ["driver-active received but driverId is missing!"]⟩
    | some s =>
      if s = "" then
        ⟨store, [], sock, false, ["driver-active received but driverId is missing!"]⟩
      else if dbOk then
        ⟨upsertStatus store s Status.online now,
         [⟨"status-update", EventPayload.statusUpdate s Status.online, Scope.all⟩],
         some s, false, []⟩
      else
        ⟨store, [], some s, false, ["Error setting online status:"]⟩

/-- The update-location handler (server.js lines 59 to 71).  Unlike
driver-active, its guard reads data.driverId without first testing data,
so an undefined or null payload raises a TypeError that escapes the async
handler (threw = true).  A present payload with a missing or empty
driverId is a silent no-op.  Otherwise saveLocation runs inside try; on
success the inbound data object is rebroadcast verbatim as
location-received to every session except the sender, on store failure the
error is logged and nothing is emitted. -/
def updateLocation (sock : Option String) (store : List DriverRecord)
    (data : Option LocData) (now : Nat) (dbOk : Bool) : HandlerResult :=
  match data with
  | none => ⟨store, [], sock, true, []⟩
  | some d =>
    match d.driverId with
    | none => ⟨store, [], sock, false, []⟩
    | some s =>
      if s = "" then ⟨store, [], sock, false, []⟩
      else if dbOk then
        ⟨saveLocation store s d.coordinates now,
         [⟨"location-received", EventPayload.locationReceived d, Scope.exceptSender⟩],
         sock, false, []⟩
      else
        ⟨store, [], sock, false, ["Error saving location:"]⟩

/-- The disconnect handler (server.js lines 74 to 95).  If socket.driverId
is truthy, the offline update-only write runs inside try; on success a
status-update offline event is emitted to all sessions, on store failure
the error is logged and nothing is emitted.  A never-bound session
produces no store write and no emit. -/
def disconnect (sock : Option String) (store : List DriverRecord)
    (now : Nat) (dbOk : Bool) : HandlerResult :=
  match sock with
  | none => ⟨store, [], sock, false, []⟩
  | some d =>
    if d = "" then ⟨store, [], sock, false, []⟩
    else if dbOk then
      ⟨updateStatusIfExists store d Status.offline now,
       [⟨"status-update", EventPayload.statusUpdate d Status.offline, Scope.all⟩],
       sock, false, []⟩
    else
      ⟨store, [], sock, false, ["Error setting offline status:"]⟩

/-- A sequence of repeated driver-active check-ins for one driver on one
session, each with a successful store write, at the given sequence of
times. -/
def repeatedCheckIn (store : List DriverRecord) (d : String) (ts : List Nat) :
    List DriverRecord :=
  ts.foldl (fun s t => (driverActive (some d) s (some ⟨some d⟩) t true).store) store

/-! Store lemmas. -/

/-- After an upsert for d, the first record for d carries the new status
and timestamp and the previous coordinates (none when the record was just
created). -/
lemma findD_upsertStatus_self (s : List DriverRecord) (d : String) (st : Status) (now : Nat) :
    findD (upsertStatus s d st now) d =
      some ⟨d, st, now, (findD s d).bind DriverRecord.coordinates⟩ := by
  induction s with
  | nil => simp [upsertStatus, findD]
  | cons r rs ih =>
    by_cases h : r.driverId = d
    · simp [upsertStatus, findD, h]
    · simp [upsertStatus, findD, h, ih]

/-- An upsert creates the record exactly when it was absent, and never
duplicates it. -/
lemma countD_upsertStatus (s : List DriverRecord) (d : String) (st : Status) (now : Nat) :
    countD (upsertStatus s d st now) d =
      if countD s d = 0 then 1 else countD s d := by
  induction s with
  | nil => simp [upsertStatus, countD]
  | cons r rs ih =>
    by_cases h : r.driverId = d
    · simp [upsertStatus, countD, h]
    · simp [upsertStatus, countD, h, ih]

/-- An update-only write maps the first record for d through the status
change and returns none exactly when no record exists. -/
lemma findD_updateStatusIfExists_self (s : List DriverRecord) (d : String) (st : Status)
    (now : Nat) :
    findD (updateStatusIfExists s d st now) d =
      (findD s d).map (fun r => ⟨d, st, now, r.coordinates⟩) := by
  induction s with
  | nil => simp [updateStatusIfExists, findD]
  | cons r rs ih =>
    by_cases h : r.driverId = d
    · simp [updateStatusIfExists, findD, h]
    · simp [updateStatusIfExists, findD, h, ih]

/-- An update-only write never creates or deletes a record, for any
driverId. -/
lemma countD_updateStatusIfExists (s : List DriverRecord) (d d' : String) (st : Status)
    (now : Nat) :
    countD (updateStatusIfExists s d st now) d' = countD s d' := by
  induction s with
  | nil => simp [updateStatusIfExists]
  | cons r rs ih =>
    by_cases h : r.driverId = d
    · simp [updateStatusIfExists, countD, h]
    · simp [updateStatusIfExists, countD, h, ih]

/-- When a record for d exists, saveLocation rewrites its coordinates and
lastSeen and keeps its status. -/
lemma findD_saveLocation_self (s : List DriverRecord) (d : String) (c : Option Coord)
    (now : Nat) (r0 : DriverRecord) (hfind : findD s d = some r0) :
    findD (saveLocation s d c now) d = some ⟨d, r0.status, now, c⟩ := by
  induction s with
  | nil => simp [findD] at hfind
  | cons r rs ih =>
    by_cases h : r.driverId = d
    · simp [findD, h] at hfind
      simp [saveLocation, findD, h, ← hfind]
    · simp [findD, h] at hfind
      simp [saveLocation, findD, h, ih hfind]

/-- saveLocation for d leaves every other driverId's first record
untouched. -/
lemma findD_saveLocation_other (s : List DriverRecord) (d d' : String) (c : Option Coord)
    (now : Nat) (hne : d' ≠ d) :
    findD (saveLocation s d c now) d' = findD s d' := by
  induction s with
  | nil => simp [saveLocation, findD, Ne.symm hne]
  | cons r rs ih =>
    by_cases h : r.driverId = d
    · simp [saveLocation, findD, h, Ne.symm hne]
    · simp [saveLocation, findD, h, ih]

/-- When a record for d exists, saveLocation neither creates nor deletes a
record for any driverId. -/
lemma countD_saveLocation (s : List DriverRecord) (d d' : String) (c : Option Coord)
    (now : Nat) (r0 : DriverRecord) (hfind : findD s d = some r0) :
    countD (saveLocation s d c now) d' = countD s d' := by
  induction s with
  | nil => simp [findD] at hfind
  | cons r rs ih =>
    by_cases h : r.driverId = d
    · simp [saveLocation, countD, h]
    · simp [findD, h] at hfind
      simp [saveLocation, countD, h, ih hfind]

/-- With a non-empty driverId and a successful write, the driver-active
handler stores exactly the online upsert. -/
lemma driverActive_store_ok (sock : Option String) (store : List DriverRecord) (d : String)
    (now : Nat) (hd : d ≠ "") :
    driverActive sock store (some ⟨some d⟩) now true =
      ⟨upsertStatus store d Status.online now,
       [⟨"status-update", EventPayload.statusUpdate d Status.online, Scope.all⟩],
       some d, false, []⟩ := by
  simp [driverActive, hd]

/-! Claim theorems. -/

/-- C1: a driver-active check-in with a non-empty driverId, on store-write
success, leaves the store with a record for that driver whose status is
online and whose lastSeen is the current time (created by the upsert when
absent, keeping prior coordinates when present), and emits exactly one
status-update online event whose scope delivers it to every connected
session, the reporting one included. -/
theorem C1_driver_active_online (sock : Option String) (store : List DriverRecord)
    (d : String) (now : Nat) (hd : d ≠ "") :
    findD (driverActive sock store (some ⟨some d⟩) now true).store d =
      some ⟨d, Status.online, now, (findD store d).bind DriverRecord.coordinates⟩ ∧
    (driverActive sock store (some ⟨some d⟩) now true).emits =
      [⟨"status-update", EventPayload.statusUpdate d Status.online, Scope.all⟩] ∧
    ∀ (sender sid : Nat) (connected : List Nat), sid ∈ connected →
      deliveredTo ⟨"status-update", EventPayload.statusUpdate d Status.online, Scope.all⟩
        sender connected sid = true := by
  refine ⟨?_, ?_, ?_⟩
  · rw [driverActive_store_ok sock store d now hd]
    exact findD_upsertStatus_self store d Status.online now
  · rw [driverActive_store_ok sock store d now hd]
  · intro sender sid connected hmem
    simp [deliveredTo, hmem]

/-- C1 witness: the theorem applied at a concrete check-in. -/
theorem C1_driver_active_online_witness :
    findD (driverActive none [] (some ⟨some "d1"⟩) 3 true).store "d1" =
      some ⟨"d1", Status.online, 3, none⟩ ∧
    (driverActive none [] (some ⟨some "d1"⟩) 3 true).emits =
      [⟨"status-update", EventPayload.statusUpdate "d1" Status.online, Scope.all⟩] := by
  have h := C1_driver_active_online none [] "d1" 3 (by decide)
  exact ⟨h.1, h.2.1⟩

/-- C2: a disconnect of a session bound to d updates the existing record
for d to offline with refreshed lastSeen through an update-only write that
creates nothing for any driverId, and emits one status-update offline
event delivered to every connected session; a disconnect of a never-bound
session changes nothing and emits nothing. -/
theorem C2_disconnect_offline (store : List DriverRecord) (d : String) (now : Nat)
    (hd : d ≠ "") :
    findD (disconnect (some d) store now true).store d =
      (findD store d).map (fun r => ⟨d, Status.offline, now, r.coordinates⟩) ∧
    (∀ d', countD (disconnect (some d) store now true).store d' = countD store d') ∧
    (disconnect (some d) store now true).emits =
      [⟨"status-update", EventPayload.statusUpdate d Status.offline, Scope.all⟩] ∧
    (∀ (sender sid : Nat) (connected : List Nat), sid ∈ connected →
      deliveredTo ⟨"status-update", EventPayload.statusUpdate d Status.offline, Scope.all⟩
        sender connected sid = true) ∧
    (disconnect none store now true).store = store ∧
    (disconnect none store now true).emits = [] := by
  refine ⟨?_, ?_, ?_, ?_, ?_, ?_⟩
  · simp [disconnect, hd, findD_updateStatusIfExists_self]
  · intro d'
    simp [disconnect, hd, countD_updateStatusIfExists]
  · simp [disconnect, hd]
  · intro sender sid connected hmem
    simp [deliveredTo, hmem]
  · simp [disconnect]
  · simp [disconnect]

/-- C2 witness: the theorem applied at a concrete bound disconnect over a
one-record store. -/
theorem C2_disconnect_offline_witness :
    findD (disconnect (some "d1") [⟨"d1", Status.online, 2, some ⟨5, 6⟩⟩] 9 true).store "d1" =
      some ⟨"d1", Status.offline, 9, some ⟨5, 6⟩⟩ ∧
    (disconnect (some "d1") [⟨"d1", Status.online, 2, some ⟨5, 6⟩⟩] 9 true).emits =
      [⟨"status-update", EventPayload.statusUpdate "d1" Status.offline, Scope.all⟩] := by
  have h := C2_disconnect_offline [⟨"d1", Status.online, 2, some ⟨5, 6⟩⟩] "d1" 9 (by decide)
  exact ⟨by rw [h.1]; rfl, h.2.2.1⟩

/-- C3 counterexample: on one session, a driver-active binding to "d1"
followed by a driver-active carrying "d2" leaves the session bound to
"d2"; the binding set first does not persist, refuting the claim that a
binding, once set, never changes. -/
theorem C3_rebind_counterexample :
    (driverActive none [] (some ⟨some "d1"⟩) 0 true).binding = some "d1" ∧
    (driverActive
        (driverActive none [] (some ⟨some "d1"⟩) 0 true).binding
        (driverActive none [] (some ⟨some "d1"⟩) 0 true).store
        (some ⟨some "d2"⟩) 1 true).binding = some "d2" ∧
    some "d2" ≠ some "d1" := by
  refine ⟨rfl, rfl, by decide⟩

/-- C3 amended: each driver-active message with a non-empty driverId
overwrites the session binding, so after any such message the binding is
that message's driverId, whatever the session was bound to before and
whether or not the store write succeeds. -/
theorem C3_binding_last_checkin (sock : Option String) (store : List DriverRecord)
    (d : String) (now : Nat) (dbOk : Bool) (hd : d ≠ "") :
    (driverActive sock store (some ⟨some d⟩) now dbOk).binding = some d := by
  cases dbOk <;> simp [driverActive, hd]

/-- C3 amended witness: rebinding applied at a concrete second check-in on
an already-bound session. -/
theorem C3_binding_last_checkin_witness :
    (driverActive (some "d1") [] (some ⟨some "d2"⟩) 1 true).binding = some "d2" :=
  C3_binding_last_checkin (some "d1") [] "d2" 1 true (by decide)

/-- C4: an update-location message with a non-empty driverId, on
store-write success, emits exactly one location-received event carrying
the driverId and coordinates payload, whose scope delivers it to every
connected session other than the sender and never to the sender itself. -/
theorem C4_location_broadcast_except_sender (sock : Option String)
    (store : List DriverRecord) (d : String) (c : Option Coord) (now : Nat) (hd : d ≠ "") :
    (updateLocation sock store (some ⟨some d, c⟩) now true).emits =
      [⟨"location-received", EventPayload.locationReceived ⟨some d, c⟩, Scope.exceptSender⟩] ∧
    (∀ (sender sid : Nat) (connected : List Nat), sid ∈ connected → sid ≠ sender →
      deliveredTo
        ⟨"location-received", EventPayload.locationReceived ⟨some d, c⟩, Scope.exceptSender⟩
        sender connected sid = true) ∧
    (∀ (sender : Nat) (connected : List Nat),
      deliveredTo
        ⟨"location-received", EventPayload.locationReceived ⟨some d, c⟩, Scope.exceptSender⟩
        sender connected sender = false) := by
  refine ⟨by simp [updateLocation, hd], ?_, ?_⟩
  · intro sender sid connected hmem hne
    simp [deliveredTo, hmem, hne]
  · intro sender connected
    simp [deliveredTo]

/-- C4 witness: the theorem applied at a concrete position update; the
sender session 7 is excluded while another connected session 8 receives
the event. -/
theorem C4_location_broadcast_except_sender_witness :
    (updateLocation none [] (some ⟨some "d1", some ⟨1, 2⟩⟩) 4 true).emits =
      [⟨"location-received", EventPayload.locationReceived ⟨some "d1", some ⟨1, 2⟩⟩,
        Scope.exceptSender⟩] ∧
    deliveredTo
      ⟨"location-received", EventPayload.locationReceived ⟨some "d1", some ⟨1, 2⟩⟩,
        Scope.exceptSender⟩ 7 [7, 8] 8 = true ∧
    deliveredTo
      ⟨"location-received", EventPayload.locationReceived ⟨some "d1", some ⟨1, 2⟩⟩,
        Scope.exceptSender⟩ 7 [7, 8] 7 = false := by
  have h := C4_location_broadcast_except_sender none [] "d1" (some ⟨1, 2⟩) 4 (by decide)
  exact ⟨h.1, h.2.1 7 8 [7, 8] (by decide) (by decide), h.2.2 7 [7, 8]⟩

/-- C5: when the store write throws, every one of the three operations
logs the error and completes with the store unchanged, no event emitted,
and no exception escaping the handler, so nothing reaches the client and
the session stays up. -/
theorem C5_store_failure_suppresses_broadcast (sock : Option String)
    (store : List DriverRecord) (d : String) (c : Option Coord) (now : Nat) (hd : d ≠ "") :
    driverActive sock store (some ⟨some d⟩) now false =
      ⟨store, [], some d, false, ["Error setting online status:"]⟩ ∧
    updateLocation sock store (some ⟨some d, c⟩) now false =
      ⟨store, [], sock, false, ["Error saving location:"]⟩ ∧
    disconnect (some d) store now false =
      ⟨store, [], some d, false, ["Error setting offline status:"]⟩ := by
  refine ⟨?_, ?_, ?_⟩ <;> simp [driverActive, updateLocation, disconnect, hd]

/-- C5 witness: the theorem applied at a concrete driver and store. -/
theorem C5_store_failure_suppresses_broadcast_witness :
    driverActive none [⟨"d1", Status.offline, 0, none⟩] (some ⟨some "d1"⟩) 5 false =
      ⟨[⟨"d1", Status.offline, 0, none⟩], [], some "d1", false,
       ["Error setting online status:"]⟩ ∧
    disconnect (some "d1") [⟨"d1", Status.offline, 0, none⟩] 5 false =
      ⟨[⟨"d1", Status.offline, 0, none⟩], [], some "d1", false,
       ["Error setting offline status:"]⟩ := by
  have h := C5_store_failure_suppresses_broadcast none [⟨"d1", Status.offline, 0, none⟩]
    "d1" none 5 (by decide)
  exact ⟨h.1, h.2.2⟩

/-- C6, evaluated at the failing input: an update-location event with an
absent (undefined or null) payload makes the handler throw before any
effect, because the guard reads data.driverId without testing data; an
object payload with a missing or empty driverId is, as claimed, a silent
no-op with no write, no emit and no exception. -/
theorem C6_null_payload_throws :
    (updateLocation none [⟨"d1", Status.online, 0, none⟩] none 5 true).threw = true ∧
    (updateLocation none [⟨"d1", Status.online, 0, none⟩] none 5 true).store =
      [⟨"d1", Status.online, 0, none⟩] ∧
    (updateLocation none [⟨"d1", Status.online, 0, none⟩] none 5 true).emits = [] ∧
    updateLocation none [⟨"d1", Status.online, 0, none⟩] (some ⟨none, some ⟨1, 2⟩⟩) 5 true =
      ⟨[⟨"d1", Status.online, 0, none⟩], [], none, false, []⟩ ∧
    updateLocation none [⟨"d1", Status.online, 0, none⟩] (some ⟨some "", some ⟨1, 2⟩⟩) 5 true =
      ⟨[⟨"d1", Status.online, 0, none⟩], [], none, false, []⟩ := by
  refine ⟨rfl, rfl, rfl, rfl, rfl⟩

/-- C7: a driver-active message with an absent payload, a missing
driverId, or an empty driverId is rejected with only a log: the store,
the emitted events, and the session binding are exactly as before, and
nothing is thrown, whether or not the store would have succeeded. -/
theorem C7_invalid_checkin_no_effect (sock : Option String) (store : List DriverRecord)
    (now : Nat) (dbOk : Bool) :
    driverActive sock store none now dbOk =
      ⟨store, [], sock, false, ["driver-active received but driverId is missing!"]⟩ ∧
    driverActive sock store (some ⟨none⟩) now dbOk =
      ⟨store, [], sock, false, ["driver-active received but driverId is missing!"]⟩ ∧
    driverActive sock store (some ⟨some ""⟩) now dbOk =
      ⟨store, [], sock, false, ["driver-active received but driverId is missing!"]⟩ := by
  refine ⟨rfl, rfl, rfl⟩

/-- C8: an update-location write for a driver whose record exists replaces
that record's coordinates and lastSeen, keeps its status exactly as it
was, and leaves every other driver's record untouched. -/
theorem C8_location_write_preserves_status (sock : Option String)
    (store : List DriverRecord) (d : String) (c : Coord) (now : Nat)
    (r0 : DriverRecord) (hd : d ≠ "") (hfind : findD store d = some r0) :
    findD (updateLocation sock store (some ⟨some d, some c⟩) now true).store d =
      some ⟨d, r0.status, now, some c⟩ ∧
    (∀ d', d' ≠ d →
      findD (updateLocation sock store (some ⟨some d, some c⟩) now true).store d' =
        findD store d') ∧
    (∀ d', countD (updateLocation sock store (some ⟨some d, some c⟩) now true).store d' =
        countD store d') := by
  refine ⟨?_, ?_, ?_⟩
  · simpa [updateLocation, hd] using findD_saveLocation_self store d (some c) now r0 hfind
  · intro d' hne
    simpa [updateLocation, hd] using findD_saveLocation_other store d d' (some c) now hne
  · intro d'
    simpa [updateLocation, hd] using countD_saveLocation store d d' (some c) now r0 hfind

/-- C8 witness: the theorem applied to a store holding an online record;
the position update refreshes coordinates and lastSeen and the driver
stays online. -/
theorem C8_location_write_preserves_status_witness :
    findD (updateLocation none [⟨"d1", Status.online, 0, none⟩]
        (some ⟨some "d1", some ⟨1, 2⟩⟩) 7 true).store "d1" =
      some ⟨"d1", Status.online, 7, some ⟨1, 2⟩⟩ :=
  (C8_location_write_preserves_status none [⟨"d1", Status.online, 0, none⟩] "d1" ⟨1, 2⟩ 7
    ⟨"d1", Status.online, 0, none⟩ (by decide) (by decide)).1

/-- Last element of a list of times, with a fallback for the empty list. -/
def lastD : List Nat → Nat → Nat
  | [], a => a
  | t :: ts, _ => lastD ts t

/-- Unfolding one check-in inside a repeated sequence. -/
lemma repeatedCheckIn_cons (store : List DriverRecord) (d : String) (t : Nat)
    (ts : List Nat) (hd : d ≠ "") :
    repeatedCheckIn store d (t :: ts) =
      repeatedCheckIn (upsertStatus store d Status.online t) d ts := by
  simp [repeatedCheckIn, driverActive_store_ok _ _ _ _ hd]

/-- C9: any non-empty sequence of successful driver-active check-ins for
one driver, starting from a store that holds at most one record for that
driver, leaves exactly one record for the driver, online, with lastSeen
equal to the time of the last check-in and the coordinates the store held
before the sequence: repetition only advances lastSeen. -/
theorem C9_repeated_checkin_idempotent (store : List DriverRecord) (d : String)
    (t0 : Nat) (ts : List Nat) (hd : d ≠ "") (hcount : countD store d ≤ 1) :
    countD (repeatedCheckIn store d (t0 :: ts)) d = 1 ∧
    findD (repeatedCheckIn store d (t0 :: ts)) d =
      some ⟨d, Status.online, lastD ts t0,
        (findD store d).bind DriverRecord.coordinates⟩ := by
  induction ts generalizing store t0 with
  | nil =>
    rw [repeatedCheckIn_cons store d t0 [] hd]
    refine ⟨?_, ?_⟩
    · simp only [repeatedCheckIn, List.foldl_nil, countD_upsertStatus]
      split <;> omega
    · simpa [repeatedCheckIn, lastD] using findD_upsertStatus_self store d Status.online t0
  | cons t1 ts ih =>
    rw [repeatedCheckIn_cons store d t0 (t1 :: ts) hd]
    have hcount' : countD (upsertStatus store d Status.online t0) d ≤ 1 := by
      rw [countD_upsertStatus]
      split <;> omega
    obtain ⟨h1, h2⟩ := ih (upsertStatus store d Status.online t0) t1 hcount'
    refine ⟨h1, ?_⟩
    rw [h2, findD_upsertStatus_self]
    simp [lastD]

/-- C9 witness: two repeated check-ins over a store already holding the
driver online; one record remains, online, with only lastSeen advanced to
the last check-in time. -/
theorem C9_repeated_checkin_idempotent_witness :
    countD (repeatedCheckIn [⟨"d1", Status.online, 0, some ⟨1, 2⟩⟩] "d1" [3, 8]) "d1" = 1 ∧
    findD (repeatedCheckIn [⟨"d1", Status.online, 0, some ⟨1, 2⟩⟩] "d1" [3, 8]) "d1" =
      some ⟨"d1", Status.online, 8, some ⟨1, 2⟩⟩ :=
  C9_repeated_checkin_idempotent [⟨"d1", Status.online, 0, some ⟨1, 2⟩⟩] "d1" 3 [8]
    (by decide) (by decide)

/-- C10: a driver-active check-in with a non-empty driverId binds the
session before the store write is attempted, so even a check-in whose
write fails (no record stored, nothing emitted) leaves the session bound;
the subsequent disconnect then still performs the offline update-only
write and emits status-update offline for that driver, over any store,
including one in which the driver was never persisted. -/
theorem C10_bind_precedes_write (store : List DriverRecord) (d : String)
    (now1 now2 : Nat) (hd : d ≠ "") :
    (driverActive none store (some ⟨some d⟩) now1 false).binding = some d ∧
    (driverActive none store (some ⟨some d⟩) now1 false).store = store ∧
    (driverActive none store (some ⟨some d⟩) now1 false).emits = [] ∧
    (disconnect (driverActive none store (some ⟨some d⟩) now1 false).binding
        store now2 true).store = updateStatusIfExists store d Status.offline now2 ∧
    (disconnect (driverActive none store (some ⟨some d⟩) now1 false).binding
        store now2 true).emits =
      [⟨"status-update", EventPayload.statusUpdate d Status.offline, Scope.all⟩] := by
  refine ⟨?_, ?_, ?_, ?_, ?_⟩ <;> simp [driverActive, disconnect, hd]

/-- C10 witness: over an empty store, the failed check-in stores and emits
nothing yet binds the session, and the disconnect still announces the
driver offline while the update-only write finds nothing to update. -/
theorem C10_bind_precedes_write_witness :
    (driverActive none [] (some ⟨some "d1"⟩) 1 false).binding = some "d1" ∧
    (driverActive none [] (some ⟨some "d1"⟩) 1 false).emits = [] ∧
    (disconnect (driverActive none [] (some ⟨some "d1"⟩) 1 false).binding [] 2 true).emits =
      [⟨"status-update", EventPayload.statusUpdate "d1" Status.offline, Scope.all⟩] := by
  have h := C10_bind_precedes_write [] "d1" 1 2 (by decide)
  exact ⟨h.1, h.2.2.1, h.2.2.2.2⟩

end Fleet
